import Mathlib

/-!
# Verification of the MiniMaxi TTS command-line client

A shallow embedding of `src/skills/tts/scripts/minmax_tts.py` and proofs of
the behavioural claims made by the specification.

Modelling conventions:

* machine bytes are `Nat` values below 256;
* JSON values are the inductive `Json` (objects are ordered association
  lists, mirroring Python dict insertion order);
* parsed command-line arguments (`argparse.Namespace`) are the structure
  `Args`; flags whose argparse default is `None` are `Option`-typed, flags
  whose default is the empty string / empty list keep that representation,
  matching what the Python code can actually observe;
* the outside world (file reads, the HTTP POST to an endpoint, the audio
  URL download, path resolution) is a record of oracle functions `World`;
* the filesystem is `FS`: a set-like list of existing directories and an
  association list of files (writes shadow earlier entries);
* fallible Python code is embedded in `Except String` / `Option`, the
  error string carrying the exception message where the source formats one.
-/

set_option linter.unusedVariables false

namespace Minmax

/-- JSON values; objects keep insertion order like Python dictionaries. -/
inductive Json where
  | null
  | bool (b : Bool)
  | num (q : ℚ)
  | str (s : String)
  | arr (items : List Json)
  | obj (fields : List (String × Json))

/-- Association-list lookup by key (first match wins, like dict access). -/
def alookup {α : Type} (k : String) : List (String × α) → Option α
  | [] => none
  | (a, v) :: rest => if k = a then some v else alookup k rest

/-- `obj.get(k)` on a JSON object. -/
def Json.getKey (j : Json) (k : String) : Option Json :=
  match j with
  | .obj fields => alookup k fields
  | _ => none

/-- Parsed command-line arguments (`argparse.Namespace` from `parse_args`). -/
structure Args where
  text : Option String
  text_file : Option String
  voice_id : String
  output : String
  format : String
  model : String
  sample_rate : Int
  bitrate : Int
  channel : Int
  speed : ℚ
  volume : ℚ
  pitch : Int
  emotion : String
  language_boost : String
  pronunciation_tone : List String
  output_format : String
  subtitle_enable : Bool
  aigc_watermark : Bool
  voice_modify_pitch : Option ℚ
  voice_modify_intensity : Option ℚ
  voice_modify_timbre : Option ℚ
  endpoint : String
  backup_endpoint : String
  api_key : String
  timeout : Int

/-- The nested `base_resp` status object of a provider response. -/
structure BaseResp where
  status_code : Option Int
  status_msg : Option String

/-- The `data` object of a provider response. -/
structure RespData where
  audio : Option String

/-- A parsed provider response, restricted to the fields the client reads. -/
structure TtsResponse where
  base_resp : Option BaseResp
  trace_id : Option String
  data : Option RespData

/-- Outcome of one HTTP POST attempt against an endpoint: a 2xx response
whose body parsed as JSON, an HTTP error status with its body, or any other
transport-level failure (connection error, timeout, unparseable body). -/
inductive NetResult where
  | success (resp : TtsResponse)
  | httpError (code : Nat) (body : String)
  | failure (msg : String)

/-- Filesystem state: existing directories and file contents. -/
structure FS where
  dirs : List String
  files : List (String × List Nat)

/-- The ambient world: text-file reads, the TTS endpoint network, the audio
URL download, and OS path resolution (`expanduser().resolve()`). -/
structure World where
  readFile : String → Option String
  net : String → NetResult
  download : String → Except String (List Nat)
  resolve : String → String

/-- Python truthiness of an optional string: `None` and `""` are falsy. -/
def pyTruthy (o : Option String) : Bool :=
  match o with
  | none => false
  | some s => s != ""

/-- The ASCII whitespace characters `str.strip()` removes. -/
def isPySpace (c : Char) : Bool :=
  c.toNat = 32 ∨ c.toNat = 9 ∨ c.toNat = 10 ∨ c.toNat = 13 ∨ c.toNat = 11 ∨ c.toNat = 12

/-- `s.strip()`: drop leading and trailing whitespace. -/
def pyStrip (s : String) : String :=
  ⟨((s.data.dropWhile isPySpace).reverse.dropWhile isPySpace).reverse⟩

/-- `str(p).rsplit("/", 1)[0]`: the parent directory of a path. -/
def parentPath (p : String) : String :=
  String.intercalate "/" ((p.splitOn "/").dropLast)

/-- Every ancestor directory of `dir` (all component prefixes), the chain
`mkdir(parents=True)` creates. -/
def ancestorDirs (dir : String) : List String :=
  let parts := dir.splitOn "/"
  (List.range parts.length).map (fun i => String.intercalate "/" (parts.take (i + 1)))

/-- `output_path.parent.mkdir(parents=True, exist_ok=True)`: record the whole
ancestor chain of the parent directory as existing. -/
def mkdirParents (fs : FS) (filePath : String) : FS :=
  { fs with dirs := ancestorDirs (parentPath filePath) ++ fs.dirs }

/-- `path.write_bytes(content)`: overwrite the file at `p`. -/
def writeFile (fs : FS) (p : String) (content : List Nat) : FS :=
  { fs with files := (p, content) :: fs.files }

/-- Value of one hexadecimal digit (`bytes.fromhex` accepts both cases). -/
def hexVal (c : Char) : Option Nat :=
  if 48 ≤ c.toNat ∧ c.toNat ≤ 57 then some (c.toNat - 48)
  else if 97 ≤ c.toNat ∧ c.toNat ≤ 102 then some (c.toNat - 97 + 10)
  else if 65 ≤ c.toNat ∧ c.toNat ≤ 70 then some (c.toNat - 65 + 10)
  else none

/-- Core loop of CPython `bytes.fromhex` (3.7+): ASCII whitespace may
separate byte pairs, each byte is two adjacent hex digits, anything else
raises `ValueError` (modelled as `none`). -/
def fromhexAux : List Char → Option (List Nat)
  | [] => some []
  | c :: rest =>
    if isPySpace c then fromhexAux rest
    else
      match hexVal c with
      | none => none
      | some hi =>
        match rest with
        | [] => none
        | c2 :: rest2 =>
          match hexVal c2 with
          | none => none
          | some lo =>
            match fromhexAux rest2 with
            | none => none
            | some bs => some ((hi * 16 + lo) :: bs)

/-- `bytes.fromhex(s)`. -/
def bytes_fromhex (s : String) : Option (List Nat) :=
  fromhexAux s.data

/-- Value of one character of the standard base64 alphabet. -/
def b64Val (c : Char) : Option Nat :=
  if 65 ≤ c.toNat ∧ c.toNat ≤ 90 then some (c.toNat - 65)
  else if 97 ≤ c.toNat ∧ c.toNat ≤ 122 then some (c.toNat - 97 + 26)
  else if 48 ≤ c.toNat ∧ c.toNat ≤ 57 then some (c.toNat - 48 + 52)
  else if c = '+' then some 62
  else if c = '/' then some 63
  else none

/-- Core loop of CPython `binascii.a2b_base64` in non-strict mode (what
`base64.b64decode` calls): characters outside the alphabet are skipped,
`=` only terminates a quad that already holds at least two data characters,
and a leftover quad position at the end raises `binascii.Error`.
State: remaining input, quad position, carried bits, pad count, output. -/
def a2bAux : List Char → Nat → Nat → Nat → List Nat → Except String (List Nat)
  | [], quad_pos, _, _, acc =>
    if quad_pos = 0 then .ok acc.reverse
    else if quad_pos = 1 then
      .error "Invalid base64-encoded string: number of data characters cannot be 1 more than a multiple of 4"
    else .error "Incorrect padding"
  | c :: rest, quad_pos, leftchar, pads, acc =>
    if c = '=' then
      if 2 ≤ quad_pos then
        if 4 ≤ quad_pos + pads + 1 then .ok acc.reverse
        else a2bAux rest quad_pos leftchar (pads + 1) acc
      else a2bAux rest quad_pos leftchar pads acc
    else
      match b64Val c with
      | none => a2bAux rest quad_pos leftchar pads acc
      | some v =>
        match quad_pos with
        | 0 => a2bAux rest 1 v 0 acc
        | 1 => a2bAux rest 2 (v % 16) 0 ((leftchar * 4 + v / 16) :: acc)
        | 2 => a2bAux rest 3 (v % 4) 0 ((leftchar * 16 + v / 4) :: acc)
        | _ => a2bAux rest 0 0 0 ((leftchar * 64 + v) :: acc)

/-- `base64.b64decode(s)` (non-strict, the default): a `str` argument is
first encoded as ASCII, so any non-ASCII character raises `ValueError`
before the `a2b_base64` loop runs. -/
def b64decode (s : String) : Except String (List Nat) :=
  if s.data.all (fun c => c.toNat ≤ 127) then a2bAux s.data 0 0 0 []
  else .error "string argument should contain only ASCII characters"

/-- `decode_audio_field`: try `bytes.fromhex` first; on `ValueError` fall
back to `base64.b64decode` (whose own errors propagate). -/
def decode_audio_field (audio_value : String) : Except String (List Nat) :=
  match bytes_fromhex audio_value with
  | some b => .ok b
  | none => b64decode audio_value

/-- Lowercase hexadecimal digit for a value below 16 (`bytes.hex` digit). -/
def hexDigitChar (d : Nat) : Char :=
  if d < 10 then Char.ofNat (48 + d) else Char.ofNat (97 + (d - 10))

/-- Characters of the lowercase hex encoding of a byte sequence. -/
def hexEncodeChars : List Nat → List Char
  | [] => []
  | x :: rest => hexDigitChar (x / 16) :: hexDigitChar (x % 16) :: hexEncodeChars rest

/-- `bytes(b).hex()`: lowercase hex encoding of a byte sequence. -/
def hexEncode (b : List Nat) : String :=
  ⟨hexEncodeChars b⟩

/-- `read_text(args)`: require exactly one truthy text source, read it,
strip whitespace, and reject empty results. A missing `--text-file` target
surfaces as the propagated `FileNotFoundError`. -/
def read_text (readFile : String → Option String) (args : Args) : Except String String :=
  if pyTruthy args.text = pyTruthy args.text_file then
    .error "Provide exactly one of --text or --text-file."
  else
    let raw : Except String String :=
      if pyTruthy args.text then .ok (args.text.getD "")
      else
        match readFile (args.text_file.getD "") with
        | some contents => .ok contents
        | none => .error ("No such file or directory: " ++ args.text_file.getD "")
    match raw with
    | .error e => .error e
    | .ok t =>
      let text := pyStrip t
      if text = "" then .error "Input text is empty." else .ok text

/-- `build_payload(text, args)`: the JSON request body, with insertion
order matching the Python dict and optional fields added only when their
flag value is truthy (`emotion`, `language_boost`, `pronunciation_tone`)
or not `None` (the three `voice_modify` components). -/
def build_payload (text : String) (args : Args) : Json :=
  let voice_setting :=
    [("voice_id", Json.str args.voice_id), ("speed", Json.num args.speed),
     ("vol", Json.num args.volume), ("pitch", Json.num (args.pitch : ℚ))] ++
    (if args.emotion ≠ "" then [("emotion", Json.str args.emotion)] else [])
  let voice_modify :=
    (match args.voice_modify_pitch with
     | some v => [("pitch", Json.num v)]
     | none => []) ++
    (match args.voice_modify_intensity with
     | some v => [("intensity", Json.num v)]
     | none => []) ++
    (match args.voice_modify_timbre with
     | some v => [("timbre", Json.num v)]
     | none => [])
  Json.obj
    ([("model", Json.str args.model), ("text", Json.str text),
      ("stream", Json.bool false),
      ("voice_setting", Json.obj voice_setting),
      ("audio_setting", Json.obj
         [("sample_rate", Json.num (args.sample_rate : ℚ)),
          ("bitrate", Json.num (args.bitrate : ℚ)),
          ("format", Json.str args.format),
          ("channel", Json.num (args.channel : ℚ))]),
      ("subtitle_enable", Json.bool args.subtitle_enable),
      ("output_format", Json.str args.output_format),
      ("aigc_watermark", Json.bool args.aigc_watermark)] ++
     (if args.language_boost ≠ "" then [("language_boost", Json.str args.language_boost)] else []) ++
     (if args.pronunciation_tone ≠ [] then
        [("pronunciation_dict", Json.obj [("tone", Json.arr (args.pronunciation_tone.map Json.str))])]
      else []) ++
     (if voice_modify.isEmpty then [] else [("voice_modify", Json.obj voice_modify)]))

/-- The attempt list of `call_minimaxi`: the primary endpoint, then the
backup if it is truthy and not already in the list. -/
def endpointsOf (args : Args) : List String :=
  if args.backup_endpoint ≠ "" ∧ ¬ (args.backup_endpoint ∈ [args.endpoint]) then
    [args.endpoint, args.backup_endpoint]
  else
    [args.endpoint]

/-- The `for endpoint in endpoints` loop of `call_minimaxi`: return the
first successful parsed response, remembering the last formatted error;
also returns the list of endpoints actually attempted. -/
def attemptLoop (net : String → NetResult) :
    List String → Option String → List String × Except String TtsResponse
  | [], last_error =>
    ([], .error (match last_error with
                 | some e => e
                 | none => "Unknown request error"))
  | endpoint :: rest, _ =>
    match net endpoint with
    | .success resp => ([endpoint], .ok resp)
    | .httpError code details =>
      let r := attemptLoop net rest (some s!"HTTP {code} @ {endpoint}: {details}")
      (endpoint :: r.1, r.2)
    | .failure msg =>
      let r := attemptLoop net rest (some s!"Request failed @ {endpoint}: {msg}")
      (endpoint :: r.1, r.2)

/-- `call_minimaxi(payload, args)`: refuse an empty API key before any
request, then try the endpoints in order. The first component lists the
endpoints an HTTP request was actually sent to. -/
def call_minimaxi (net : String → NetResult) (payload : Json) (args : Args) :
    List String × Except String TtsResponse :=
  if args.api_key = "" then
    ([], .error "Missing API key. Set MINIMAX_API_KEY (or legacy MINMAX_API_KEY).")
  else
    attemptLoop net (endpointsOf args) none

/-- The provider-status error message raised by `save_audio`. -/
def statusErrorMessage (status_code : Int) (status_msg : String) (trace_id : String) : String :=
  s!"MiniMaxi error: status_code={status_code}, status_msg={status_msg}, trace_id={trace_id}"

/-- The part of `save_audio` after the status check: extract `data.audio`,
resolve the output path, create parent directories, then download or
decode the audio and write it. The middle component lists URLs fetched by
the `url` delivery branch. -/
def audioPhase (w : World) (resp : TtsResponse) (args : Args) (fs : FS) :
    FS × List String × Except String String :=
  let data := resp.data.getD { audio := none }
  match data.audio with
  | none => (fs, [], .error "Response missing data.audio.")
  | some audio =>
    if audio = "" then (fs, [], .error "Response missing data.audio.")
    else
      let output_path := w.resolve args.output
      let fs1 := mkdirParents fs output_path
      if args.output_format = "url" then
        match w.download audio with
        | .error e => (fs1, [audio], .error e)
        | .ok content => (writeFile fs1 output_path content, [audio], .ok output_path)
      else
        match decode_audio_field audio with
        | .error e => (fs1, [], .error e)
        | .ok content => (writeFile fs1 output_path content, [], .ok output_path)

/-- `save_audio(resp, args)`: fail on a non-zero `base_resp.status_code`
(missing object or field defaults to 0), otherwise run the audio phase.
Returns the final filesystem, fetched URLs, and the output path or error. -/
def save_audio (w : World) (resp : TtsResponse) (args : Args) (fs : FS) :
    FS × List String × Except String String :=
  let base_resp := resp.base_resp.getD { status_code := none, status_msg := none }
  let status_code := base_resp.status_code.getD 0
  if status_code ≠ 0 then
    (fs, [],
     .error (statusErrorMessage status_code (base_resp.status_msg.getD "unknown error")
        (resp.trace_id.getD "")))
  else
    audioPhase w resp args fs

/-- The `main` pipeline: `read_text`, `build_payload`, `call_minimaxi`,
`save_audio`, short-circuiting to the top-level error handler. Returns the
final filesystem, every network request issued (endpoint POSTs then URL
downloads), and the outcome. -/
def runMain (w : World) (args : Args) (fs : FS) :
    FS × List String × Except String String :=
  match read_text w.readFile args with
  | .error e => (fs, [], .error e)
  | .ok text =>
    match call_minimaxi w.net (build_payload text args) args with
    | (calls, .error e) => (fs, calls, .error e)
    | (calls, .ok resp) =>
      let r := save_audio w resp args fs
      (r.1, calls ++ r.2.1, r.2.2)

/-- `base_resp.status_code` when both the object and the field are present. -/
def statusCodeOf (resp : TtsResponse) : Option Int :=
  resp.base_resp.bind (fun br => br.status_code)

/-! ## Concrete fixtures used by witnesses -/

/-- A quiet world: no readable files, unreachable network, failing download,
identity path resolution. -/
def w0 : World :=
  { readFile := fun _ => none,
    net := fun _ => .failure "connection refused",
    download := fun _ => .error "download failed",
    resolve := fun p => p }

/-- Arguments matching the CLI defaults with a text, voice, output and key. -/
def args0 : Args :=
  { text := some "hello world", text_file := none,
    voice_id := "female-tianmei", output := "out/audio.mp3",
    format := "mp3", model := "speech-2.8-hd",
    sample_rate := 32000, bitrate := 128000, channel := 1,
    speed := 1, volume := 1, pitch := 0,
    emotion := "", language_boost := "", pronunciation_tone := [],
    output_format := "hex", subtitle_enable := false, aigc_watermark := false,
    voice_modify_pitch := none, voice_modify_intensity := none,
    voice_modify_timbre := none,
    endpoint := "https://api.minimaxi.com/v1/t2a_v2",
    backup_endpoint := "https://api-bj.minimaxi.com/v1/t2a_v2",
    api_key := "k", timeout := 60 }

/-- An empty filesystem. -/
def fs0 : FS := { dirs := [], files := [] }

/-- A provider response with a non-zero status. -/
def respErr : TtsResponse :=
  { base_resp := some { status_code := some 1004, status_msg := some "insufficient balance" },
    trace_id := some "trace-1", data := some { audio := some "00ff" } }

/-- A provider response with status 0 and a hex audio field. -/
def respOk : TtsResponse :=
  { base_resp := some { status_code := some 0, status_msg := some "success" },
    trace_id := some "trace-2", data := some { audio := some "00ff" } }

/-! ## Claims -/

/-- C1: whenever `base_resp.status_code` is present and non-zero,
`save_audio` raises the provider error (carrying the code, the status
message, and the trace identifier) and leaves the filesystem untouched:
no file is written and no directory is created. -/
theorem save_audio_nonzero_status (w : World) (resp : TtsResponse) (args : Args) (fs : FS)
    (br : BaseResp) (c : Int)
    (hbr : resp.base_resp = some br) (hc : br.status_code = some c) (hne : c ≠ 0) :
    save_audio w resp args fs =
      (fs, [], .error (statusErrorMessage c (br.status_msg.getD "unknown error")
        (resp.trace_id.getD ""))) := by
  simp [save_audio, hbr, hc, hne]

/-- Witness for C1 at a concrete failing response. -/
theorem save_audio_nonzero_status_witness :
    save_audio w0 respErr args0 fs0 =
      (fs0, [], .error (statusErrorMessage 1004 "insufficient balance" "trace-1")) :=
  save_audio_nonzero_status w0 respErr args0 fs0
    { status_code := some 1004, status_msg := some "insufficient balance" } 1004
    rfl rfl (by decide)

/-- C7: with an empty API key, `call_minimaxi` raises the validation error
and attempts no endpoint at all (the attempted-endpoint trace is empty). -/
theorem call_minimaxi_missing_key (net : String → NetResult) (payload : Json) (args : Args)
    (h : args.api_key = "") :
    call_minimaxi net payload args =
      ([], .error "Missing API key. Set MINIMAX_API_KEY (or legacy MINMAX_API_KEY).") := by
  simp [call_minimaxi, h]

/-- Witness for C7 with a concretely empty key. -/
theorem call_minimaxi_missing_key_witness :
    call_minimaxi w0.net Json.null { args0 with api_key := "" } =
      ([], .error "Missing API key. Set MINIMAX_API_KEY (or legacy MINMAX_API_KEY).") :=
  call_minimaxi_missing_key w0.net Json.null { args0 with api_key := "" } rfl

/-- Each value below 16 is encoded as a hex digit that decodes back to it
and is never a whitespace character. -/
theorem hexDigit_spec :
    ∀ d < 16, hexVal (hexDigitChar d) = some d ∧ isPySpace (hexDigitChar d) = false := by
  decide

/-- `bytes.fromhex` inverts the lowercase hex encoding byte by byte. -/
theorem fromhexAux_hexEncodeChars (b : List Nat) (h : ∀ x ∈ b, x < 256) :
    fromhexAux (hexEncodeChars b) = some b := by
  induction b with
  | nil => rfl
  | cons x xs ih =>
    have hx : x < 256 := h x (List.mem_cons_self x xs)
    have h1 : x / 16 < 16 := by omega
    have h2 : x % 16 < 16 := by omega
    obtain ⟨e1, ne1⟩ := hexDigit_spec (x / 16) h1
    obtain ⟨e2, ne2⟩ := hexDigit_spec (x % 16) h2
    have ihx := ih (fun y hy => h y (List.mem_cons_of_mem x hy))
    have hsum : x / 16 * 16 + x % 16 = x := by omega
    simp [hexEncodeChars, fromhexAux, ne1, e1, e2, ihx, hsum]

/-- C8: feeding the lowercase hex encoding of any byte sequence through
`decode_audio_field` reproduces the bytes exactly (the hex branch wins). -/
theorem decode_hex_roundtrip (b : List Nat) (h : ∀ x ∈ b, x < 256) :
    decode_audio_field (hexEncode b) = .ok b := by
  have hfx : bytes_fromhex (hexEncode b) = some b := fromhexAux_hexEncodeChars b h
  simp [decode_audio_field, hfx]

/-- Witness for C8 on a concrete byte sequence. -/
theorem decode_hex_roundtrip_witness :
    decode_audio_field (hexEncode [0, 171, 255]) = .ok [0, 171, 255] :=
  decode_hex_roundtrip [0, 171, 255] (by decide)

/-- Helper: a missing or zero status code always reaches the audio phase. -/
theorem statusOk_save_eq (w : World) (resp : TtsResponse) (args : Args) (fs : FS)
    (hst : statusCodeOf resp = none ∨ statusCodeOf resp = some 0) :
    save_audio w resp args fs = audioPhase w resp args fs := by
  rcases hst with hst | hst
  · rcases hbr : resp.base_resp with _ | br
    · simp [save_audio, hbr]
    · have hsc : br.status_code = none := by
        simpa [statusCodeOf, hbr] using hst
      simp [save_audio, hbr, hsc]
  · rcases hbr : resp.base_resp with _ | br
    · simp [statusCodeOf, hbr] at hst
    · have hsc : br.status_code = some 0 := by
        simpa [statusCodeOf, hbr] using hst
      simp [save_audio, hbr, hsc]

/-- C9: `save_audio` raises the provider-status error exactly when
`base_resp.status_code` is present and non-zero; a response without a
`base_resp` object, without the `status_code` field, or with code 0 is
treated as success and proceeds to the audio-extraction phase. -/
theorem save_audio_status_iff (w : World) (resp : TtsResponse) (args : Args) (fs : FS) :
    (∀ br c, resp.base_resp = some br → br.status_code = some c → c ≠ 0 →
       save_audio w resp args fs =
         (fs, [], .error (statusErrorMessage c (br.status_msg.getD "unknown error")
            (resp.trace_id.getD "")))) ∧
    (statusCodeOf resp = none ∨ statusCodeOf resp = some 0 →
       save_audio w resp args fs = audioPhase w resp args fs) := by
  constructor
  · intro br c hbr hc hne
    simp [save_audio, hbr, hc, hne]
  · exact statusOk_save_eq w resp args fs

/-- Witness for C9: a non-zero status raises, a zero status reaches the
audio phase. -/
theorem save_audio_status_iff_witness :
    save_audio w0 respErr args0 fs0 =
      (fs0, [], .error (statusErrorMessage 1004 "insufficient balance" "trace-1")) ∧
    save_audio w0 respOk args0 fs0 = audioPhase w0 respOk args0 fs0 :=
  ⟨(save_audio_status_iff w0 respErr args0 fs0).1
      { status_code := some 1004, status_msg := some "insufficient balance" } 1004
      rfl rfl (by decide),
   (save_audio_status_iff w0 respOk args0 fs0).2 (Or.inr rfl)⟩

/-- Arguments with `--text` supplied as the empty string next to a
`--text-file`: both flags are present on the command line. -/
def cexArgs : Args := { args0 with text := some "", text_file := some "notes.txt" }

/-- A world in which `notes.txt` exists and holds `hello`. -/
def cexRead : String → Option String :=
  fun p => if p = "notes.txt" then some "hello" else none

/-- C2 counterexample: with both `--text` and `--text-file` supplied but
`--text` given the empty string, `read_text` does not raise — Python
truthiness lets the empty inline text defer to the file, which is read
successfully. -/
theorem read_text_both_supplied_ok :
    cexArgs.text.isSome = true ∧ cexArgs.text_file.isSome = true ∧
    read_text cexRead cexArgs = .ok "hello" :=
  ⟨rfl, rfl, rfl⟩

/-- C2 (amended): whenever the two text sources are equi-truthy — both
supplied with non-empty values, or neither supplied with a non-empty value
— `read_text` raises the validation error, and the pipeline stops there
with no network request issued. -/
theorem read_text_truthiness_validation (w : World) (args : Args) (fs : FS)
    (h : pyTruthy args.text = pyTruthy args.text_file) :
    read_text w.readFile args = .error "Provide exactly one of --text or --text-file." ∧
    runMain w args fs = (fs, [], .error "Provide exactly one of --text or --text-file.") := by
  have h1 : read_text w.readFile args =
      .error "Provide exactly one of --text or --text-file." := by
    simp [read_text, h]
  exact ⟨h1, by simp [runMain, h1]⟩

/-- Witness for C2 (amended): neither source supplied. -/
theorem read_text_truthiness_validation_witness :
    read_text w0.readFile { args0 with text := none, text_file := none } =
      .error "Provide exactly one of --text or --text-file." ∧
    runMain w0 { args0 with text := none, text_file := none } fs0 =
      (fs0, [], .error "Provide exactly one of --text or --text-file.") :=
  read_text_truthiness_validation w0 { args0 with text := none, text_file := none } fs0 rfl

/-- C3: for a success-status response whose audio field hex-decodes to `b`
in hex output mode, `save_audio` writes exactly `b` to the resolved output
path and reports that path. -/
theorem save_audio_hex_writes (w : World) (resp : TtsResponse) (args : Args) (fs : FS)
    (a : String) (b : List Nat)
    (hstatus : statusCodeOf resp = none ∨ statusCodeOf resp = some 0)
    (hdata : resp.data = some { audio := some a })
    (hne : a ≠ "")
    (hfmt : args.output_format = "hex")
    (hhex : bytes_fromhex a = some b) :
    save_audio w resp args fs =
      (writeFile (mkdirParents fs (w.resolve args.output)) (w.resolve args.output) b, [],
        .ok (w.resolve args.output)) ∧
    alookup (w.resolve args.output) (save_audio w resp args fs).1.files = some b := by
  have hsave : save_audio w resp args fs =
      (writeFile (mkdirParents fs (w.resolve args.output)) (w.resolve args.output) b, [],
        .ok (w.resolve args.output)) := by
    rw [statusOk_save_eq w resp args fs hstatus]
    simp [audioPhase, hdata, hne, hfmt, decode_audio_field, hhex]
  refine ⟨hsave, ?_⟩
  rw [hsave]
  simp [writeFile, alookup]

/-- Witness for C3: `"00ff"` is written as the bytes `[0, 255]`. -/
theorem save_audio_hex_writes_witness :
    save_audio w0 respOk args0 fs0 =
      (writeFile (mkdirParents fs0 "out/audio.mp3") "out/audio.mp3" [0, 255], [],
        .ok "out/audio.mp3") ∧
    alookup "out/audio.mp3" (save_audio w0 respOk args0 fs0).1.files = some [0, 255] :=
  save_audio_hex_writes w0 respOk args0 fs0 "00ff" [0, 255] (Or.inr rfl) rfl (by decide)
    rfl rfl

/-- A success response whose audio field is base64 but not hex. -/
def respB64 : TtsResponse :=
  { base_resp := none, trace_id := none, data := some { audio := some "aGk=" } }

/-- C4: when the audio field is not valid hex but base64-decodes to `b`,
`decode_audio_field` falls back from the failed hex attempt to base64 and
returns `b`, which `save_audio` then writes to the output file. -/
theorem decode_audio_field_b64_fallback (w : World) (resp : TtsResponse) (args : Args)
    (fs : FS) (a : String) (b : List Nat)
    (hhex : bytes_fromhex a = none) (hb64 : b64decode a = .ok b)
    (hstatus : statusCodeOf resp = none ∨ statusCodeOf resp = some 0)
    (hdata : resp.data = some { audio := some a }) (hne : a ≠ "")
    (hfmt : args.output_format = "hex") :
    decode_audio_field a = .ok b ∧
    save_audio w resp args fs =
      (writeFile (mkdirParents fs (w.resolve args.output)) (w.resolve args.output) b, [],
        .ok (w.resolve args.output)) := by
  have hdec : decode_audio_field a = .ok b := by
    simp [decode_audio_field, hhex, hb64]
  refine ⟨hdec, ?_⟩
  rw [statusOk_save_eq w resp args fs hstatus]
  simp [audioPhase, hdata, hne, hfmt, hdec]

/-- Witness for C4: `"aGk="` fails hex decoding and base64-decodes to the
bytes of `"hi"`, which are written out. -/
theorem decode_audio_field_b64_fallback_witness :
    decode_audio_field "aGk=" = .ok [104, 105] ∧
    save_audio w0 respB64 args0 fs0 =
      (writeFile (mkdirParents fs0 "out/audio.mp3") "out/audio.mp3" [104, 105], [],
        .ok "out/audio.mp3") :=
  decode_audio_field_b64_fallback w0 respB64 args0 fs0 "aGk=" [104, 105] rfl rfl
    (Or.inl rfl) rfl (by decide) rfl

/-- C5: `call_minimaxi` attempts at most the primary endpoint plus a
distinct non-empty backup, in that order; a transport failure on the
primary followed by a backup success yields the backup's parsed response;
and when both attempts fail the single raised error describes the last
failure, naming the endpoint and, for HTTP errors, the status code and
body. -/
theorem call_minimaxi_failover (net : String → NetResult) (payload : Json) (args : Args)
    (hkey : args.api_key ≠ "") :
    (endpointsOf args =
        if args.backup_endpoint ≠ "" ∧ args.backup_endpoint ≠ args.endpoint then
          [args.endpoint, args.backup_endpoint]
        else [args.endpoint]) ∧
    (∀ m resp, net args.endpoint = .failure m →
        args.backup_endpoint ≠ "" → args.backup_endpoint ≠ args.endpoint →
        net args.backup_endpoint = .success resp →
        call_minimaxi net payload args = ([args.endpoint, args.backup_endpoint], .ok resp)) ∧
    (∀ c1 b1 c2 b2, net args.endpoint = .httpError c1 b1 →
        args.backup_endpoint ≠ "" → args.backup_endpoint ≠ args.endpoint →
        net args.backup_endpoint = .httpError c2 b2 →
        call_minimaxi net payload args =
          ([args.endpoint, args.backup_endpoint],
            .error s!"HTTP {c2} @ {args.backup_endpoint}: {b2}")) ∧
    (∀ m1 m2, net args.endpoint = .failure m1 →
        args.backup_endpoint ≠ "" → args.backup_endpoint ≠ args.endpoint →
        net args.backup_endpoint = .failure m2 →
        call_minimaxi net payload args =
          ([args.endpoint, args.backup_endpoint],
            .error s!"Request failed @ {args.backup_endpoint}: {m2}")) := by
  refine ⟨by simp [endpointsOf], ?_, ?_, ?_⟩
  · intro m resp hfail hb hne hsucc
    have hep : endpointsOf args = [args.endpoint, args.backup_endpoint] := by
      simp [endpointsOf, hb, hne]
    simp [call_minimaxi, hkey, hep, attemptLoop, hfail, hsucc]
  · intro c1 b1 c2 b2 h1 hb hne h2
    have hep : endpointsOf args = [args.endpoint, args.backup_endpoint] := by
      simp [endpointsOf, hb, hne]
    simp [call_minimaxi, hkey, hep, attemptLoop, h1, h2]
  · intro m1 m2 h1 hb hne h2
    have hep : endpointsOf args = [args.endpoint, args.backup_endpoint] := by
      simp [endpointsOf, hb, hne]
    simp [call_minimaxi, hkey, hep, attemptLoop, h1, h2]

/-- A network where the primary endpoint times out and every other
endpoint answers with the success fixture. -/
def netW : String → NetResult :=
  fun e => if e = "https://api.minimaxi.com/v1/t2a_v2" then .failure "timed out"
           else .success respOk

/-- Witness for C5: primary transport failure, backup success. -/
theorem call_minimaxi_failover_witness :
    call_minimaxi netW Json.null args0 =
      (["https://api.minimaxi.com/v1/t2a_v2", "https://api-bj.minimaxi.com/v1/t2a_v2"],
        .ok respOk) :=
  (call_minimaxi_failover netW Json.null args0 (by decide)).2.1 "timed out" respOk rfl
    (by decide) (by decide) rfl

/-- C6: for every text and argument record, the request payload contains
the mandatory `model`, `text`, and `voice_setting.voice_id` fields, and
contains `emotion`, `language_boost`, `pronunciation_dict`, and
`voice_modify` exactly when the corresponding flag values were supplied —
no placeholder structures appear otherwise. -/
theorem build_payload_fields (text : String) (args : Args) :
    (build_payload text args).getKey "model" = some (Json.str args.model) ∧
    (build_payload text args).getKey "text" = some (Json.str text) ∧
    (∃ vs, (build_payload text args).getKey "voice_setting" = some (Json.obj vs) ∧
       alookup "voice_id" vs = some (Json.str args.voice_id) ∧
       ((alookup "emotion" vs).isSome ↔ args.emotion ≠ "")) ∧
    (((build_payload text args).getKey "language_boost").isSome ↔
       args.language_boost ≠ "") ∧
    (((build_payload text args).getKey "pronunciation_dict").isSome ↔
       args.pronunciation_tone ≠ []) ∧
    (((build_payload text args).getKey "voice_modify").isSome ↔
       (args.voice_modify_pitch.isSome ∨ args.voice_modify_intensity.isSome ∨
        args.voice_modify_timbre.isSome)) := by
  by_cases hemo : args.emotion = "" <;>
    by_cases hlb : args.language_boost = "" <;>
      by_cases hpron : args.pronunciation_tone = [] <;>
        rcases hvp : args.voice_modify_pitch with _ | p <;>
          rcases hvi : args.voice_modify_intensity with _ | i <;>
            rcases hvt : args.voice_modify_timbre with _ | t <;>
              simp [build_payload, Json.getKey, alookup, hemo, hlb, hpron, hvp, hvi, hvt]

/-- A success response whose audio field fails both decodings. -/
def respBad : TtsResponse :=
  { base_resp := none, trace_id := none, data := some { audio := some "zzz!" } }

/-- C10: when a response passes the status and audio-presence checks but
the decode (or the URL download) fails, `save_audio` fails with that
error, writes no file, and yet the freshly created parent directories of
the resolved output path remain on disk — resolution and `mkdir` happen
before any decode or download. -/
theorem save_audio_decode_failure (w : World) (resp : TtsResponse) (args : Args) (fs : FS)
    (a e : String)
    (hstatus : statusCodeOf resp = none ∨ statusCodeOf resp = some 0)
    (hdata : resp.data = some { audio := some a }) (hne : a ≠ "")
    (hfail : (args.output_format = "url" ∧ w.download a = .error e) ∨
             (args.output_format ≠ "url" ∧ decode_audio_field a = .error e)) :
    (save_audio w resp args fs).1.files = fs.files ∧
    (save_audio w resp args fs).1.dirs =
      ancestorDirs (parentPath (w.resolve args.output)) ++ fs.dirs ∧
    (save_audio w resp args fs).2.2 = .error e := by
  have hsave := statusOk_save_eq w resp args fs hstatus
  rcases hfail with ⟨hfmt, hdl⟩ | ⟨hfmt, hdec⟩
  · rw [hsave]
    simp [audioPhase, hdata, hne, hfmt, hdl, mkdirParents]
  · rw [hsave]
    simp [audioPhase, hdata, hne, hfmt, hdec, mkdirParents]

/-- Witness for C10: `"zzz!"` fails hex and base64 decoding; the error
surfaces, no file is written, and `out` was still created. -/
theorem save_audio_decode_failure_witness :
    (save_audio w0 respBad args0 fs0).1.files = fs0.files ∧
    (save_audio w0 respBad args0 fs0).1.dirs =
      ancestorDirs (parentPath "out/audio.mp3") ++ fs0.dirs ∧
    (save_audio w0 respBad args0 fs0).2.2 = .error "Incorrect padding" :=
  save_audio_decode_failure w0 respBad args0 fs0 "zzz!" "Incorrect padding" (Or.inl rfl)
    rfl (by decide) (Or.inr ⟨by decide, rfl⟩)

end Minmax
